
import Mathlib

/-!
Verification of the interactive-SQL-learning pages against their
natural-language specification.  Each page is a straight-line script over
small literal pandas DataFrames; the relevant widget handlers are embedded
below as pure Lean functions over lists of records, translated directly
from the Python source.  File references in doc comments point into the
repository sources.
-/

set_option maxRecDepth 4000

/-! ## Quiz evaluators (pages 7 and 11, footer sections) -/

/-- Result of a quiz submission: the success flag and the two itemized
difference sets shown in the feedback text.  Python `set` of `str` is
modelled as `Finset String`. -/
structure QuizFeedback where
  isCorrect : Bool
  missing : Finset String
  extra : Finset String
deriving DecidableEq

/-- The fixed correct answer set of the constraints quiz
(`7_Constraints.py` line 287). -/
def constraintsCorrect : Finset String := {"PRIMARY KEY", "NOT NULL"}

/-- Submit handler of the constraints quiz (`7_Constraints.py` lines
286-302).  Note line 293 of the source binds `missing_answers =
correct_answers`, i.e. the whole correct set, not the set difference;
`extra_answers = selected_answers - correct_answers` on line 294 is a
difference. -/
def constraintsQuizSubmit (selected : Finset String) : QuizFeedback :=
  if selected = constraintsCorrect then ⟨true, ∅, ∅⟩
  else ⟨false, constraintsCorrect, selected \ constraintsCorrect⟩

/-- The fixed correct answer set of the transactions quiz
(`11_Transactions.py` lines 198-202). -/
def transactionsCorrect : Finset String :=
  {"COMMIT makes changes permanent.",
   "ROLLBACK undoes all changes since the last COMMIT.",
   "SAVEPOINT allows rolling back to intermediate states."}

/-- Submit handler of the transactions quiz (`11_Transactions.py` lines
197-215): `missing = correct_answers - selected_answers`,
`extra = selected_answers - correct_answers`. -/
def transactionsQuizSubmit (selected : Finset String) : QuizFeedback :=
  if selected = transactionsCorrect then ⟨true, ∅, ∅⟩
  else ⟨false, transactionsCorrect \ selected, selected \ transactionsCorrect⟩

/-! ## Transactions page (11_Transactions.py) -/

/-- One row of the `products` table. -/
structure ProductRow where
  product_id : Int
  product_name : String
  stock : Int
  price : Int
deriving DecidableEq

/-- The literal `products` table (`11_Transactions.py` lines 26-31).  It is
rebuilt from these literals at the top of every script rerun. -/
def products : List ProductRow :=
  [⟨1, "Laptop", 10, 1000⟩, ⟨2, "Phone", 15, 500⟩, ⟨3, "Tablet", 8, 300⟩]

/-- The stock of row 0, modelling `df.loc[0, "stock"]` (the demo tables are
never empty; the empty case returns 0). -/
def stock0 : List ProductRow → Int
  | [] => 0
  | r :: _ => r.stock

/-- The Start-Transaction button handler (`11_Transactions.py` lines
89-95): if the requested deduction exceeds the Laptop stock the session
table is left unchanged, otherwise row 0 has the deduction applied. -/
def startTransaction (d : Int) (tp : List ProductRow) : List ProductRow :=
  if d > stock0 tp then tp
  else
    match tp with
    | [] => []
    | r :: rest => { r with stock := r.stock - d } :: rest

/-- The ROLLBACK button handler (`11_Transactions.py` lines 105-108): it
assigns `st.session_state.transaction_products = products.copy()`.  Since
`products` is rebuilt from its literals at the top of every script rerun
and each button press triggers a fresh rerun, the value assigned is always
the literal seed table. -/
def rollbackTransaction (_tp : List ProductRow) : List ProductRow :=
  products

/-! ## Basic-queries page (1_Basic_SQL_Queries.py) -/

/-- One row of the sample `data` table of the basic-queries page
(`1_Basic_SQL_Queries.py` lines 5-11). -/
structure Row where
  id : Int
  name : String
  age : Int
  department : String
  city : String
deriving DecidableEq

/-- The literal sample `data` table of the basic-queries page. -/
def data : List Row :=
  [⟨1, "Alice", 25, "HR", "New York"⟩,
   ⟨2, "Bob", 35, "Engineering", "Los Angeles"⟩,
   ⟨3, "Charlie", 30, "Marketing", "Chicago"⟩,
   ⟨4, "David", 40, "Engineering", "San Francisco"⟩,
   ⟨5, "Eva", 29, "HR", "New York"⟩]

/-- The columns of `data`. -/
inductive Col
  | id
  | name
  | age
  | department
  | city
deriving DecidableEq

/-- A scalar cell value: the `data` columns hold either integers (`id`,
`age`, int64 dtype) or strings (object dtype). -/
inductive CellVal
  | int (n : Int)
  | str (s : String)
deriving DecidableEq

/-- The value of a column in a row. -/
def colKey : Col → Row → CellVal
  | Col.id, r => CellVal.int r.id
  | Col.name, r => CellVal.str r.name
  | Col.age, r => CellVal.int r.age
  | Col.department, r => CellVal.str r.department
  | Col.city, r => CellVal.str r.city

/-- `pd.api.types.is_numeric_dtype` on each column of `data`: `id` and
`age` are int64, the rest are object dtype. -/
def colNumeric : Col → Bool
  | Col.id => true
  | Col.age => true
  | _ => false

/-- The column name as interpolated into the SQL-equivalent text. -/
def colName : Col → String
  | Col.id => "id"
  | Col.name => "name"
  | Col.age => "age"
  | Col.department => "department"
  | Col.city => "city"

/-- Python equality between a pandas column scalar and a Python `str`, as
used by string comparison and `isin`: a str equals a str exactly when the
strings are equal, and an int scalar never equals a str (no coercion). -/
def valEqStr : CellVal → String → Bool
  | CellVal.int _, _ => false
  | CellVal.str t, s => decide (t = s)

/-- The result of Python `float(text)`: a finite rational, an infinity, or
nan.  The parse itself is Python library behaviour, so the embedding below
takes it as a parameter `parse : String → Option PyFloat` (`none` models
`float` raising `ValueError`). -/
inductive PyFloat
  | finite (q : Rat)
  | inf
  | neginf
  | nan
deriving DecidableEq

/-- Python `==` between a float and a pandas column scalar: a finite float
equals an int scalar exactly when the numeric values coincide; inf and nan
never equal an int; a float never equals a str. -/
def pyFloatEqVal (x : PyFloat) (v : CellVal) : Bool :=
  match x, v with
  | PyFloat.finite q, CellVal.int n => decide (q = (n : Rat))
  | _, _ => false

/-- A single ASCII apostrophe character, used for SQL string quoting. -/
def sqQuote : String := String.singleton (Char.ofNat 39)

/-- What the WHERE-clause widget displays: the filtered table, the
SQL-equivalent text, and the error message if any. -/
structure WhereResult where
  table : List Row
  sql : String
  errMsg : Option String
deriving DecidableEq

/-- The WHERE-clause filter widget (`1_Basic_SQL_Queries.py` lines 50-75),
parameterized by the Python library functions it calls: `parse` models
`float(value_filter)` (`none` = `ValueError`) and `pyRepr` models the
f-string rendering of the parsed float.  Empty input shows the whole table
with the no-filter SQL text; on a numeric column a parse failure shows the
error message, the unfiltered table, and the fixed could-not-generate SQL
text (which does not interpolate the failed value); otherwise the rows
equal to the value are kept. -/
def whereFilter (parse : String → Option PyFloat) (pyRepr : PyFloat → String)
    (col : Col) (v : String) : WhereResult :=
  if v = "" then
    ⟨data, "SELECT * FROM table_name; -- No filter applied", none⟩
  else if colNumeric col then
    match parse v with
    | some x =>
        ⟨data.filter (fun r => pyFloatEqVal x (colKey col r)),
         "SELECT * FROM table_name WHERE " ++ colName col ++ " = " ++ pyRepr x ++ ";",
         none⟩
    | none =>
        ⟨data, "-- Invalid input. Could not generate SQL command.",
         some "Invalid input for a numeric column. Please enter a number."⟩
  else
    ⟨data.filter (fun r => valEqStr (colKey col r) v),
     "SELECT * FROM table_name WHERE " ++ colName col ++ " = " ++ sqQuote ++ v ++ sqQuote ++ ";",
     none⟩

/-! ## ORDER BY widget: pandas sort_values (1_Basic_SQL_Queries.py lines 87-90)

pandas sorts a single column through `nargsort`, which calls numpy
`argsort(kind="quicksort")` on the column and then, when `ascending` is
false, reverses the whole resulting indexer.  numpy quicksort is an
introsort that runs a stable insertion sort on partitions shorter than 16
elements, so on the 3-6 row tables of this repository the ascending order
is exactly a stable insertion sort, and the descending order is its
reversal.  Strings compare lexicographically by code point, integers
numerically. -/

/-- Strict lexicographic order on code-point lists (Python string `<`). -/
def lexLt : List Char → List Char → Bool
  | [], [] => false
  | [], _ :: _ => true
  | _ :: _, [] => false
  | a :: as, b :: bs => if a = b then lexLt as bs else decide (a < b)

/-- Non-strict comparison on cell values, as numpy sorting uses on a
homogeneous column: numeric for ints, lexicographic for strings.  A column
never mixes the two kinds; the cross-kind ordering (ints first) is
arbitrary and never exercised. -/
def vleB : CellVal → CellVal → Bool
  | CellVal.int m, CellVal.int n => decide (m ≤ n)
  | CellVal.str a, CellVal.str b => !(lexLt b.data a.data)
  | CellVal.int _, CellVal.str _ => true
  | CellVal.str _, CellVal.int _ => false

/-- The sort comparison lifted to rows through a key function. -/
def keyRel {β : Type} (key : β → CellVal) (x y : β) : Prop :=
  vleB (key x) (key y) = true

instance {β : Type} (key : β → CellVal) : DecidableRel (keyRel key) :=
  fun x y => inferInstanceAs (Decidable (vleB (key x) (key y) = true))

theorem lexLt_irrefl : ∀ cs : List Char, lexLt cs cs = false
  | [] => rfl
  | c :: cs => by simp [lexLt, lexLt_irrefl cs]

theorem lexLt_asymm : ∀ (as bs : List Char),
    lexLt as bs = true → lexLt bs as = false := by
  intro as
  induction as with
  | nil =>
    intro bs h
    cases bs with
    | nil => simp [lexLt] at h
    | cons b bs => simp [lexLt]
  | cons a as ih =>
    intro bs h
    cases bs with
    | nil => simp [lexLt] at h
    | cons b bs =>
      by_cases hab : a = b
      · subst hab
        simp [lexLt] at h ⊢
        exact ih bs h
      · have hba : b ≠ a := fun e => hab e.symm
        simp [lexLt, hab, hba] at h ⊢
        exact le_of_lt h

theorem lexLt_trans : ∀ (as bs cs : List Char),
    lexLt as bs = true → lexLt bs cs = true → lexLt as cs = true := by
  intro as
  induction as with
  | nil =>
    intro bs cs h1 h2
    cases bs with
    | nil => simp [lexLt] at h1
    | cons b bs =>
      cases cs with
      | nil => simp [lexLt] at h2
      | cons c cs => simp [lexLt]
  | cons a as ih =>
    intro bs cs h1 h2
    cases bs with
    | nil => simp [lexLt] at h1
    | cons b bs =>
      cases cs with
      | nil => simp [lexLt] at h2
      | cons c cs =>
        by_cases hab : a = b
        · subst hab
          by_cases hac : a = c
          · subst hac
            simp [lexLt] at h1 h2 ⊢
            exact ih bs cs h1 h2
          · simp [lexLt, hac] at h2 ⊢
            exact h2
        · by_cases hbc : b = c
          · subst hbc
            simp [lexLt, hab] at h1 ⊢
            exact h1
          · simp [lexLt, hab, hbc] at h1 h2
            have hac : a < c := lt_trans h1 h2
            have hne : a ≠ c := ne_of_lt hac
            simp [lexLt, hne]
            exact hac

theorem lexLt_connex : ∀ (as bs : List Char),
    lexLt as bs = false → lexLt bs as = false → as = bs := by
  intro as
  induction as with
  | nil =>
    intro bs h1 _
    cases bs with
    | nil => rfl
    | cons b bs => simp [lexLt] at h1
  | cons a as ih =>
    intro bs h1 h2
    cases bs with
    | nil => simp [lexLt] at h2
    | cons b bs =>
      by_cases hab : a = b
      · subst hab
        simp [lexLt] at h1 h2
        rw [ih bs h1 h2]
      · have hba : b ≠ a := fun e => hab e.symm
        simp [lexLt, hab, hba] at h1 h2
        exact absurd (le_antisymm h2 h1) hab

theorem vleB_refl : ∀ a : CellVal, vleB a a = true := by
  intro a
  cases a with
  | int n => simp [vleB]
  | str s => simp [vleB, lexLt_irrefl]

theorem vleB_total : ∀ a b : CellVal, vleB a b = true ∨ vleB b a = true := by
  intro a b
  cases a with
  | int m =>
    cases b with
    | int n => simp [vleB]; exact Int.le_total m n
    | str t => exact Or.inl rfl
  | str s =>
    cases b with
    | int n => exact Or.inr rfl
    | str t =>
      simp [vleB]
      cases h : lexLt t.data s.data with
      | false => exact Or.inl rfl
      | true => exact Or.inr (lexLt_asymm t.data s.data h)

theorem vleB_trans : ∀ a b c : CellVal,
    vleB a b = true → vleB b c = true → vleB a c = true := by
  intro a b c h1 h2
  cases a with
  | int m =>
    cases c with
    | int p =>
      cases b with
      | int n =>
        simp [vleB] at h1 h2 ⊢
        exact le_trans h1 h2
      | str t => simp [vleB] at h2
    | str u => rfl
  | str s =>
    cases b with
    | int n => simp [vleB] at h1
    | str t =>
      cases c with
      | int p => simp [vleB] at h2
      | str u =>
        simp [vleB] at h1 h2 ⊢
        cases hcon : lexLt u.data s.data with
        | false => rfl
        | true =>
          exfalso
          cases hbc : lexLt t.data u.data with
          | true =>
            have := lexLt_trans t.data u.data s.data hbc hcon
            rw [h1] at this
            exact Bool.false_ne_true this
          | false =>
            rw [lexLt_connex t.data u.data hbc h2] at h1
            rw [h1] at hcon
            exact Bool.false_ne_true hcon

instance {β : Type} (key : β → CellVal) : IsTotal β (keyRel key) :=
  ⟨fun a b => vleB_total (key a) (key b)⟩

instance {β : Type} (key : β → CellVal) : IsTrans β (keyRel key) :=
  ⟨fun _ _ _ h1 h2 => vleB_trans _ _ _ h1 h2⟩

/-- The sort of the ORDER BY widget: a stable insertion sort by the key
for the ascending order, reversed wholesale when descending (this is
exactly what `data.sort_values(by=col, ascending=asc)` computes on these
tables, see the section comment above). -/
def sortValues {β : Type} (key : β → CellVal) (ascending : Bool)
    (rows : List β) : List β :=
  let s := List.insertionSort (keyRel key) rows
  if ascending then s else s.reverse

/-- The ORDER BY widget output (`1_Basic_SQL_Queries.py` line 89). -/
def sortedData (col : Col) (ascending : Bool) : List Row :=
  sortValues (colKey col) ascending data

theorem filter_orderedInsert_key {β : Type} (key : β → CellVal) (v : CellVal)
    (a : β) : ∀ l : List β,
    (List.orderedInsert (keyRel key) a l).filter (fun x => decide (key x = v)) =
      if key a = v then a :: l.filter (fun x => decide (key x = v))
      else l.filter (fun x => decide (key x = v)) := by
  intro l
  induction l with
  | nil => by_cases h : key a = v <;> simp [List.orderedInsert, h]
  | cons b l ih =>
    rw [List.orderedInsert]
    by_cases hr : keyRel key a b
    · rw [if_pos hr]
      by_cases ha : key a = v <;> by_cases hb : key b = v <;>
        simp [List.filter_cons, ha, hb]
    · rw [if_neg hr]
      by_cases hb : key b = v
      · have ha : key a ≠ v := by
          intro ha
          exact hr (show vleB (key a) (key b) = true by
            rw [ha, ← hb]
            exact vleB_refl (key b))
        simp [List.filter_cons, hb, ha, ih]
      · by_cases ha : key a = v <;> simp [List.filter_cons, hb, ha, ih]

theorem filter_insertionSort_key {β : Type} (key : β → CellVal) (v : CellVal) :
    ∀ l : List β,
    (List.insertionSort (keyRel key) l).filter (fun x => decide (key x = v)) =
      l.filter (fun x => decide (key x = v)) := by
  intro l
  induction l with
  | nil => rfl
  | cons a l ih =>
    rw [List.insertionSort, filter_orderedInsert_key key v a, ih]
    by_cases h : key a = v <;> simp [List.filter_cons, h]

/-- Generic behaviour of the embedded `sort_values`: both directions are
permutations ordered by the key, the ascending sort is stable (the rows at
each key value keep their original relative order), and the descending
sort carries the rows at each key value in reversed original order. -/
theorem sortValues_sorted_stable {β : Type} (key : β → CellVal)
    (rows : List β) :
    List.Sorted (keyRel key) (sortValues key true rows)
    ∧ List.Sorted (fun x y => keyRel key y x) (sortValues key false rows)
    ∧ List.Perm (sortValues key true rows) rows
    ∧ List.Perm (sortValues key false rows) rows
    ∧ (∀ v, (sortValues key true rows).filter (fun x => decide (key x = v)) =
        rows.filter (fun x => decide (key x = v)))
    ∧ (∀ v, (sortValues key false rows).filter (fun x => decide (key x = v)) =
        (rows.filter (fun x => decide (key x = v))).reverse) := by
  refine ⟨?_, ?_, ?_, ?_, ?_, ?_⟩
  · simpa [sortValues] using List.sorted_insertionSort (keyRel key) rows
  · show List.Pairwise _ (sortValues key false rows)
    have h : List.Pairwise (keyRel key) (List.insertionSort (keyRel key) rows) :=
      List.sorted_insertionSort (keyRel key) rows
    simpa [sortValues] using List.pairwise_reverse.mpr h
  · simpa [sortValues] using List.perm_insertionSort (keyRel key) rows
  · simpa [sortValues] using
      (List.reverse_perm (List.insertionSort (keyRel key) rows)).trans
        (List.perm_insertionSort (keyRel key) rows)
  · intro v
    simpa [sortValues] using filter_insertionSort_key key v rows
  · intro v
    show ((List.insertionSort (keyRel key) rows).reverse).filter _ = _
    rw [List.filter_reverse, filter_insertionSort_key key v rows]

/-! ## LIKE widget (1_Basic_SQL_Queries.py lines 119-167)

The widget interpolates the raw user text into a regular expression
(`".*" + text + ".*"`, `"^" + text + ".*"`, `".*" + text + "$"`,
`"^" + text + "$"`) and filters with `Series.str.contains(..., regex=True)`,
i.e. `re.search`.  The embedding models the regex fragment these patterns
can produce when the user text contains only literal characters and the
`.` metacharacter (other regex metacharacters are outside the model): the
leading/trailing `.*` and the anchors reduce `re.search` to matching the
tokenized user text against some substring / a prefix-length window / a
suffix-length window / the whole string. -/

/-- One regex token arising from a user-text character: `.` becomes the
any-character wildcard, every other character matches itself. -/
inductive RTok
  | dot
  | lit (c : Char)
deriving DecidableEq

/-- How Python `re` tokenizes the interpolated user text (restricted to
the dot-or-literal fragment). -/
def tokenize (s : String) : List RTok :=
  s.data.map (fun c => if c = '.' then RTok.dot else RTok.lit c)

/-- The tokens of the user text read as a case-sensitive literal, the
semantics the page and its displayed SQL LIKE command advertise. -/
def litTokens (s : String) : List RTok :=
  s.data.map RTok.lit

/-- Whether one token matches one character. -/
def tokMatch : RTok → Char → Bool
  | RTok.dot, _ => true
  | RTok.lit c, d => decide (c = d)

/-- Whether a token sequence matches a character list exactly. -/
def seqMatch : List RTok → List Char → Bool
  | [], [] => true
  | t :: ts, c :: cs => tokMatch t c && seqMatch ts cs
  | _, _ => false

/-- Whether the tokens match a window at the start of the string
(`re.search` of `"^" ++ text ++ ".*"`). -/
def headMatch (ts : List RTok) (cs : List Char) : Bool :=
  seqMatch ts (cs.take ts.length)

/-- Whether the tokens match a window at the end of the string
(`re.search` of `".*" ++ text ++ "$"`). -/
def tailMatch (ts : List RTok) (cs : List Char) : Bool :=
  seqMatch ts (cs.drop (cs.length - ts.length))

/-- Whether the tokens match some substring (`re.search` of
`".*" ++ text ++ ".*"`). -/
def someSubstrMatch (ts : List RTok) (cs : List Char) : Bool :=
  (List.range (cs.length + 1)).any (fun i => headMatch ts (cs.drop i))

/-- The pattern-type radio options of the LIKE widget. -/
inductive PatternType
  | contains
  | beginsWith
  | endsWith
  | exactMatch
deriving DecidableEq

/-- The text (object-dtype) columns offered by the LIKE widget. -/
inductive TextCol
  | name
  | department
  | city
deriving DecidableEq

/-- The value of a text column in a row. -/
def textColVal : TextCol → Row → String
  | TextCol.name, r => r.name
  | TextCol.department, r => r.department
  | TextCol.city, r => r.city

/-- The LIKE widget filter (`1_Basic_SQL_Queries.py` lines 142-164): the
user text is tokenized as a regex fragment and matched per the chosen
pattern type; empty input shows the whole table. -/
def likeFilter (pt : PatternType) (col : TextCol) (input : String) :
    List Row :=
  if input = "" then data
  else
    data.filter (fun r =>
      match pt with
      | PatternType.contains => someSubstrMatch (tokenize input) (textColVal col r).data
      | PatternType.beginsWith => headMatch (tokenize input) (textColVal col r).data
      | PatternType.endsWith => tailMatch (tokenize input) (textColVal col r).data
      | PatternType.exactMatch => seqMatch (tokenize input) (textColVal col r).data)

/-! ## IN widget (1_Basic_SQL_Queries.py lines 179-183) -/

/-- The IN widget filter: the comma-separated input is split and each
piece whitespace-stripped, producing a list of Python strings; rows whose
column value `isin` that list are kept (empty input shows the whole
table).  `isin` compares without coercion, so an int cell never equals any
entered string. -/
def inFilter (col : Col) (input : String) : List Row :=
  if input = "" then data
  else
    data.filter (fun r =>
      ((input.splitOn ",").map (fun s => s.trim)).any
        (fun s => valEqStr (colKey col r) s))

/-! ## Set-operations page (5_Set_Operations.py) -/

/-- One row of the `employees_a` / `employees_b` / `employees` tables
(pages 5 and 7 share this schema). -/
structure EmpRow where
  emp_id : Int
  name : String
  department : String
  salary : Int
deriving DecidableEq

/-- The literal `employees_a` table (`5_Set_Operations.py` lines 5-10). -/
def employees_a : List EmpRow :=
  [⟨1, "Alice", "HR", 50000⟩, ⟨2, "Bob", "Engineering", 60000⟩,
   ⟨3, "Charlie", "Marketing", 55000⟩]

/-- The literal `employees_b` table (`5_Set_Operations.py` lines 12-17). -/
def employees_b : List EmpRow :=
  [⟨3, "Charlie", "Marketing", 55000⟩, ⟨4, "David", "Engineering", 70000⟩,
   ⟨5, "Eva", "HR", 48000⟩]

/-- pandas `drop_duplicates` (default `keep="first"`): the first
occurrence of each row is kept in order, later duplicates are removed.
`seen` accumulates the rows already emitted. -/
def dropDupsFrom {α : Type} [DecidableEq α] (seen : List α) :
    List α → List α
  | [] => []
  | a :: l =>
      if a ∈ seen then dropDupsFrom seen l
      else a :: dropDupsFrom (a :: seen) l

/-- `df.drop_duplicates()` on a whole frame. -/
def dropDuplicates {α : Type} [DecidableEq α] (l : List α) : List α :=
  dropDupsFrom [] l

/-- UNION tab (`5_Set_Operations.py` line 58): concatenate the two column
selections and drop duplicate rows. -/
def unionOp {α : Type} [DecidableEq α] (A B : List α) : List α :=
  dropDuplicates (A ++ B)

/-- UNION ALL tab (`5_Set_Operations.py` line 84): plain concatenation. -/
def unionAllOp {α : Type} (A B : List α) : List α :=
  A ++ B

/-- INTERSECT tab (`5_Set_Operations.py` lines 110-112): `pd.merge(...,
how="inner")` on all selected columns, producing one output row per
matching pair. -/
def intersectOp {α : Type} [DecidableEq α] (A B : List α) : List α :=
  A.flatMap (fun a => B.filter (fun b => decide (b = a)))

/-- EXCEPT tab (`5_Set_Operations.py` lines 138-141): outer merge with
indicator, keeping the left-only rows — the rows of `A` that do not occur
in `B`, with their multiplicity in `A`. -/
def exceptOp {α : Type} [DecidableEq α] (A B : List α) : List α :=
  A.filter (fun a => decide (a ∉ B))

theorem dropDupsFrom_length_le {α : Type} [DecidableEq α] :
    ∀ (l seen : List α), (dropDupsFrom seen l).length ≤ l.length := by
  intro l
  induction l with
  | nil => intro seen; exact Nat.le_refl 0
  | cons a l ih =>
    intro seen
    rw [dropDupsFrom]
    by_cases h : a ∈ seen
    · rw [if_pos h]
      exact Nat.le_succ_of_le (ih seen)
    · rw [if_neg h]
      exact Nat.succ_le_succ (ih (a :: seen))

/-! ## Constraints page (7_Constraints.py) -/

/-- The literal initial `employees` table (`7_Constraints.py` lines
23-28). -/
def employees : List EmpRow :=
  [⟨1, "Alice", "HR", 50000⟩, ⟨2, "Bob", "Engineering", 60000⟩,
   ⟨3, "Charlie", "Marketing", 55000⟩]

/-- The rejection message of the PRIMARY KEY handler (emoji prefix of the
source message omitted). -/
def dupKeyMsg : String :=
  "Duplicate Employee ID! The PRIMARY KEY constraint is violated."

/-- The PRIMARY KEY Add-Row handler (`7_Constraints.py` lines 69-81): if
the candidate row emp_id already occurs in the `emp_id` column the row is
rejected with the duplicate-key error and the displayed table is the
unchanged `employees`; otherwise the row is appended. -/
def addRowPrimaryKey (tbl : List EmpRow) (r : EmpRow) :
    List EmpRow × Option String :=
  if tbl.any (fun e => decide (e.emp_id = r.emp_id)) then (tbl, some dupKeyMsg)
  else (tbl ++ [r], none)

/-- The DEFAULT-constraint Add-Row handler (`7_Constraints.py` lines
259-274): the salary widget starts at the sentinel 0, and the handler
inserts `new_salary if new_salary != 0 else 40000`, then appends the row
unconditionally. -/
def addRowDefault (tbl : List EmpRow) (empId : Int) (nm dept : String)
    (salary : Int) : List EmpRow :=
  tbl ++ [⟨empId, nm, dept, if salary ≠ 0 then salary else 40000⟩]

/-! ## Claim theorems -/

/-- C1: evaluating the constraints quiz submit handler at the concrete
superset selection {PRIMARY KEY, NOT NULL, UNIQUE}.  The submission is
(correctly) marked incorrect, but the itemized missing set produced by the
code is the whole correct set {PRIMARY KEY, NOT NULL}, while the set
difference correct minus selected is empty, so the handler does not
itemize exactly the missing items as the claim states (the parallel
transactions handler does compute the difference). -/
theorem c1_constraints_quiz_bug :
    (constraintsQuizSubmit {"PRIMARY KEY", "NOT NULL", "UNIQUE"}).isCorrect = false
    ∧ (constraintsQuizSubmit {"PRIMARY KEY", "NOT NULL", "UNIQUE"}).missing
        = constraintsCorrect
    ∧ constraintsCorrect \ {"PRIMARY KEY", "NOT NULL", "UNIQUE"} = ∅
    ∧ (constraintsQuizSubmit {"PRIMARY KEY", "NOT NULL", "UNIQUE"}).missing
        ≠ constraintsCorrect \ {"PRIMARY KEY", "NOT NULL", "UNIQUE"} := by
  refine ⟨by decide, by decide, by decide, by decide⟩

/-- C2: for every input on a numeric column that `float` fails to parse,
the widget reports the distinct invalid-input error message, displays the
unfiltered sample table (not an empty result), and displays the fixed
comment SQL text, which is the same constant for every failing value and
so never mentions the value that failed to parse. -/
theorem c2_invalid_numeric_input (parse : String → Option PyFloat)
    (pyRepr : PyFloat → String) (col : Col) (v : String)
    (hnum : colNumeric col = true) (hne : v ≠ "") (hfail : parse v = none) :
    whereFilter parse pyRepr col v =
      ⟨data, "-- Invalid input. Could not generate SQL command.",
       some "Invalid input for a numeric column. Please enter a number."⟩ := by
  simp [whereFilter, hne, hnum, hfail]

/-- Witness for C2 at the concrete failing input "abc" on the numeric
column `age`, with a parse function that rejects everything. -/
theorem c2_witness :
    whereFilter (fun _ => none) (fun _ => "") Col.age "abc" =
      ⟨data, "-- Invalid input. Could not generate SQL command.",
       some "Invalid input for a numeric column. Please enter a number."⟩ :=
  c2_invalid_numeric_input (fun _ => none) (fun _ => "") Col.age "abc" rfl
    (by decide) rfl

/-- C3 counterexample: sorting the sample table by `department` descending.
The two HR rows (ids 1 and 5) appear in the output in reversed original
order, id 5 before id 1, because pandas reverses the whole stable
ascending indexer when `ascending=False`; the claim that ties keep their
original relative order in either direction is therefore false at this
concrete input. -/
theorem c3_counterexample :
    ((sortedData Col.department false).filter
        (fun r => decide (r.department = "HR"))).map (fun r => r.id) = [5, 1]
    ∧ (data.filter (fun r => decide (r.department = "HR"))).map
        (fun r => r.id) = [1, 5] := by
  refine ⟨by decide, by decide⟩

/-- C3 (amended): for every column choice, the Sort operation returns a
permutation of the rows ordered by that column natural ordering
(lexicographic for text, numeric for numbers) in the requested direction;
the ascending sort is stable (rows with equal sort keys keep their
original relative order), while the descending sort carries rows with
equal sort keys in reversed original relative order. -/
theorem c3_amended (col : Col) :
    List.Sorted (keyRel (colKey col)) (sortedData col true)
    ∧ List.Sorted (fun x y => keyRel (colKey col) y x) (sortedData col false)
    ∧ List.Perm (sortedData col true) data
    ∧ List.Perm (sortedData col false) data
    ∧ (∀ v, (sortedData col true).filter (fun r => decide (colKey col r = v)) =
        data.filter (fun r => decide (colKey col r = v)))
    ∧ (∀ v, (sortedData col false).filter (fun r => decide (colKey col r = v)) =
        (data.filter (fun r => decide (colKey col r = v))).reverse) :=
  sortValues_sorted_stable (colKey col) data

/-- C4: evaluating the LIKE widget at pattern type Contains, column
`name`, user text "." — a single dot.  Because the text is interpolated
into the regex unescaped, the dot matches any character and all five rows
are kept, while the advertised case-sensitive-literal semantics (and the
SQL command the page displays alongside, WHERE name LIKE the quoted
percent-dot-percent pattern) keeps exactly the rows whose name contains a
literal dot — none. -/
theorem c4_like_regex_bug :
    likeFilter PatternType.contains TextCol.name "." = data
    ∧ data.filter (fun r => someSubstrMatch (litTokens ".") r.name.data) = [] := by
  refine ⟨by decide, by decide⟩

/-- C5: over any element type with decidable equality and any two input
tables restricted to the same column selection, the UNION result has at
most as many rows as the inputs combined, UNION ALL has exactly that many,
every INTERSECT row occurs in both inputs, and every EXCEPT row occurs in
the first input and not in the second. -/
theorem c5_set_operations {α : Type} [DecidableEq α] (A B : List α) :
    (unionOp A B).length ≤ A.length + B.length
    ∧ (unionAllOp A B).length = A.length + B.length
    ∧ (∀ x, x ∈ intersectOp A B → x ∈ A ∧ x ∈ B)
    ∧ (∀ x, x ∈ exceptOp A B → x ∈ A ∧ x ∉ B) := by
  refine ⟨?_, ?_, ?_, ?_⟩
  · calc (dropDupsFrom [] (A ++ B)).length
        ≤ (A ++ B).length := dropDupsFrom_length_le (A ++ B) []
      _ = A.length + B.length := List.length_append A B
  · exact List.length_append A B
  · intro x hx
    rw [intersectOp, List.mem_flatMap] at hx
    obtain ⟨a, ha, hxa⟩ := hx
    rw [List.mem_filter] at hxa
    have hx_eq : x = a := of_decide_eq_true hxa.2
    exact ⟨hx_eq ▸ ha, hxa.1⟩
  · intro x hx
    rw [exceptOp, List.mem_filter] at hx
    exact ⟨hx.1, of_decide_eq_true hx.2⟩

/-- Witness for C5 on the literal page tables: the whole conjunction is
instantiated at `employees_a`, `employees_b`, and the membership
implications are applied to the shared Charlie row, which the INTERSECT
tab computes. -/
theorem c5_witness :
    (unionAllOp employees_a employees_b).length = 6
    ∧ ((⟨3, "Charlie", "Marketing", 55000⟩ : EmpRow) ∈ employees_a
       ∧ (⟨3, "Charlie", "Marketing", 55000⟩ : EmpRow) ∈ employees_b) :=
  ⟨(c5_set_operations employees_a employees_b).2.1,
   (c5_set_operations employees_a employees_b).2.2.1
     ⟨3, "Charlie", "Marketing", 55000⟩ (by decide)⟩

/-- C6: inserting a candidate row under the primary-key check is rejected
with the duplicate-key reason exactly when its emp_id already occurs in
the table, and the rejected insert leaves the table unchanged (same rows,
same row count); when the emp_id is absent the row is appended. -/
theorem c6_primary_key (tbl : List EmpRow) (r : EmpRow) :
    ((∃ e ∈ tbl, e.emp_id = r.emp_id) →
      addRowPrimaryKey tbl r = (tbl, some dupKeyMsg))
    ∧ ((∀ e ∈ tbl, e.emp_id ≠ r.emp_id) →
      addRowPrimaryKey tbl r = (tbl ++ [r], none)) := by
  constructor
  · intro ⟨e, he, heq⟩
    rw [addRowPrimaryKey, if_pos]
    rw [List.any_eq_true]
    exact ⟨e, he, decide_eq_true heq⟩
  · intro h
    rw [addRowPrimaryKey, if_neg]
    rw [List.any_eq_true]
    rintro ⟨e, he, heq⟩
    exact h e he (of_decide_eq_true heq)

/-- Witness for C6 at the page table: emp_id 2 is already present (Bob),
so that insert is rejected and the table is unchanged; emp_id 4 is absent,
so that insert appends. -/
theorem c6_witness :
    addRowPrimaryKey employees ⟨2, "Zoe", "HR", 45000⟩ =
      (employees, some dupKeyMsg)
    ∧ addRowPrimaryKey employees ⟨4, "Zoe", "HR", 45000⟩ =
      (employees ++ [⟨4, "Zoe", "HR", 45000⟩], none) :=
  ⟨(c6_primary_key employees ⟨2, "Zoe", "HR", 45000⟩).1
     ⟨⟨2, "Bob", "Engineering", 60000⟩, by decide, rfl⟩,
   (c6_primary_key employees ⟨4, "Zoe", "HR", 45000⟩).2 (by decide)⟩

/-- C7 counterexample: a user who explicitly sets the salary input to 0
(the sentinel value, reachable since the widget minimum is 0) does not get
0 inserted as given: the handler appends the row with the default 40000
instead, because it sees only the submitted value and cannot distinguish
an explicit 0 from an untouched field. -/
theorem c7_counterexample :
    addRowDefault employees 4 "Dana" "HR" 0 ≠
      employees ++ [⟨4, "Dana", "HR", 0⟩]
    ∧ addRowDefault employees 4 "Dana" "HR" 0 =
      employees ++ [⟨4, "Dana", "HR", 40000⟩] := by
  refine ⟨by decide, by decide⟩

/-- C7 (amended): the DEFAULT-constraint simulation substitutes the
default salary 40000 exactly when the submitted salary value equals the
sentinel 0 — including when the user explicitly sets the input to 0, which
the handler cannot distinguish from leaving it unset; any nonzero salary
is inserted as given, and the existing rows are unchanged either way. -/
theorem c7_amended (tbl : List EmpRow) (empId : Int) (nm dept : String)
    (salary : Int) :
    (salary ≠ 0 →
      addRowDefault tbl empId nm dept salary = tbl ++ [⟨empId, nm, dept, salary⟩])
    ∧ (salary = 0 →
      addRowDefault tbl empId nm dept salary = tbl ++ [⟨empId, nm, dept, 40000⟩]) := by
  constructor
  · intro h; rw [addRowDefault, if_pos h]
  · intro h; rw [addRowDefault, if_neg (by simp [h])]

/-- Witness for C7 (amended) at salary 45000 (inserted as given) and at
the sentinel 0 (replaced by 40000). -/
theorem c7_witness :
    addRowDefault employees 4 "Dana" "HR" 45000 =
      employees ++ [⟨4, "Dana", "HR", 45000⟩]
    ∧ addRowDefault employees 4 "Dana" "HR" 0 =
      employees ++ [⟨4, "Dana", "HR", 40000⟩] :=
  ⟨(c7_amended employees 4 "Dana" "HR" 45000).1 (by decide),
   (c7_amended employees 4 "Dana" "HR" 0).2 rfl⟩

/-- C8: in the commit/rollback demo, starting from the seed table (Laptop
stock 10), deducting 3 leaves the in-progress session table showing stock
7, and rolling back from any session state restores stock exactly 10 -
never 7 or any other intermediate value. -/
theorem c8_commit_rollback :
    stock0 (startTransaction 3 products) = 7
    ∧ (∀ tp : List ProductRow, stock0 (rollbackTransaction tp) = 10) :=
  ⟨by decide, fun _ => rfl⟩

/-- C9: for each numeric column of the sample table (`id` and `age`) and
every non-empty comma-separated input, the IN filter result is empty: the
entered values are compared as whitespace-stripped strings, and a string
never equals an integer cell value, so no row can match. -/
theorem c9_in_numeric (input : String) (hne : input ≠ "") :
    inFilter Col.id input = [] ∧ inFilter Col.age input = [] := by
  constructor <;>
    · rw [inFilter, if_neg hne]
      rw [List.filter_eq_nil_iff]
      intro r _
      simp [colKey, valEqStr]

/-- Witness for C9 at the concrete input "25, 30". -/
theorem c9_witness :
    inFilter Col.id "25, 30" = [] ∧ inFilter Col.age "25, 30" = [] :=
  c9_in_numeric "25, 30" (by decide)

/-- C10: whenever the WHERE-clause text input is empty, the widget returns
the entire sample table unchanged for every column choice (and every parse
behaviour), and the displayed SQL-equivalent text is the unfiltered SELECT
annotated as having no filter applied. -/
theorem c10_where_empty (parse : String → Option PyFloat)
    (pyRepr : PyFloat → String) (col : Col) :
    whereFilter parse pyRepr col "" =
      ⟨data, "SELECT * FROM table_name; -- No filter applied", none⟩ := by
  simp [whereFilter]
